import Mathlib

/-!
# Verification of the `partitioning.ipynb` notebook (j-haacker/xclim)

Shallow embedding of the notebook `docs/notebooks/partitioning.ipynb`:
the data-fetch configuration and loop, the ensemble assembly with annual
resampling, and the two locally defined helper functions
`graph_fraction_of_total_variance` and `add_lead_time_coord`.

Numeric values are modelled as rationals; dates on the time axis are
modelled by their calendar year (an integer), which is the only part of a
date the local code reads (`da.time.dt.year`, `slice(ref, None)` with a
year string).  Fallible library calls (CSV fetch, label selection,
`int(ref)` parsing) are modelled in the `Except String` monad, with the
error string standing for the Python exception.
-/

namespace Partitioning

/-- A coordinate variable: its values (one per time point) and its attrs. -/
structure Coord where
  values : List Int
  attrs : List (String × String)
  deriving Repr, DecidableEq

/-- A labelled array indexed by (uncertainty, time): `uncs` is the
`uncertainty` coordinate, `times` the calendar years of the `time`
coordinate, `values` one row per uncertainty label (each row one value
per time point), plus non-dimension coordinates and attributes. -/
structure DataArray where
  uncs : List String
  times : List Int
  values : List (List ℚ)
  coords : List (String × Coord)
  attrs : List (String × String)
  deriving Repr, DecidableEq

/-! ## Fetch configuration (notebook cells 1 and 2) -/

/-- The directory in the Atlas repo where the data is stored. -/
def host : String :=
  "https://raw.githubusercontent.com/IPCC-WG1/Atlas/main/datasets-aggregated-regionally/data/CMIP6/CMIP6_tas_land/"

/-- The file pattern, `CMIP6_{model}_{scenario}_{member}.csv`. -/
def pat : String := "CMIP6_{model}_{scenario}_{member}.csv"

/-- Substitution `pat.format(model=model, scenario=scenario, member=member)`
of the three placeholders into the literal template `pat`, written out as
the concatenation it denotes. -/
def formatPat (model scenario member : String) : String :=
  "CMIP6_" ++ model ++ "_" ++ scenario ++ "_" ++ member ++ ".csv"

/-- The models list, `ACCESS-CM2`, `CMCC-CM2-SR5` and `CanESM5`. -/
def models : List String := ["ACCESS-CM2", "CMCC-CM2-SR5", "CanESM5"]

/-- The variant labels, one `r1i1p1f1` per model, matched to the model by position. -/
def members : List String := ["r1i1p1f1", "r1i1p1f1", "r1i1p1f1"]

/-- The scenarios list, `ssp245`, `ssp370` and `ssp585`. -/
def scenarios : List String := ["ssp245", "ssp370", "ssp585"]

/-- Pairing `zip(models, members, strict=False)`: models paired with their
member by position. -/
def modelMembers : List (String × String) := models.zip members

/-- The member matched to a model by position in the two lists. -/
def memberFor (model : String) : String := (modelMembers.lookup model).getD ""

/-- One fetch job per (model, scenario) pair, in loop order:
outer loop over `zip(models, members)`, inner loop over `scenarios`. -/
def fetchJobs : List (String × String × String) :=
  modelMembers.flatMap fun p => scenarios.map fun s => (p.1, s, p.2)

/-- The request URL of one job,
`host + pat.format(model=model, scenario=scenario, member=member)`. -/
def urlOfJob (j : String × String × String) : String :=
  host ++ formatPat j.1 j.2.1 j.2.2

/-- The list of URLs requested by the fetch loop, in request order. -/
def fetchURLs : List String := fetchJobs.map urlOfJob

/-! ## Library-call primitives used by the local helpers -/

/-- First index of a label in a coordinate, scanning left to right. -/
def idxOf? : List String → String → Option Nat
  | [], _ => none
  | a :: as, x => if a = x then some 0 else (idxOf? as x).map (· + 1)

/-- Selection `v.sel(uncertainty=label)`: the row of values carrying `label` on the
`uncertainty` coordinate, or the `KeyError` the library raises. -/
def selUnc (v : DataArray) (label : String) : Except String (List ℚ) :=
  match idxOf? v.uncs label with
  | some i =>
      match v.values[i]? with
      | some row => .ok row
      | none => .error ("KeyError: " ++ label)
  | none => .error ("KeyError: " ++ label)

/-- The value of a decimal digit character. -/
def digitVal (c : Char) : Option Nat :=
  if c.isDigit then some (c.toNat - 48) else none

/-- Decimal parsing of a digit run, most significant first. -/
def parseDigitsAux : List Char → Nat → Option Nat
  | [], acc => some acc
  | c :: cs, acc =>
      match digitVal c with
      | some d => parseDigitsAux cs (acc * 10 + d)
      | none => none

/-- Python `int(s)` on an optional minus sign followed by decimal digits
(the shapes a reference-year string can take); anything else fails. -/
def pyInt (s : String) : Option Int :=
  match s.data with
  | [] => none
  | '-' :: cs =>
      if cs = [] then none else (parseDigitsAux cs 0).map fun n => -(n : Int)
  | cs => (parseDigitsAux cs 0).map fun n => (n : Int)

/-- Parsing `int(ref)`: Python integer parsing of the reference-year string, or the
`ValueError` it raises. -/
def toIntE (ref : String) : Except String Int :=
  match pyInt ref with
  | some r => .ok r
  | none => .error ("ValueError: invalid literal for int with base 10: " ++ ref)

/-- Normalisation `variance / variance.sel(uncertainty=total) * 100`: every row divided
pointwise (over time) by the `total` row, times 100. -/
def fractionOfTotal (v : DataArray) : Except String DataArray :=
  (selUnc v "total").map fun tot =>
    { v with values := v.values.map fun row => (row.zip tot).map fun p => p.1 / p.2 * 100 }

/-- Restriction of one row of values to the time points at or after year `r`. -/
def sliceRow (times : List Int) (r : Int) (row : List ℚ) : List ℚ :=
  ((times.zip row).filter fun p => r ≤ p.1).map Prod.snd

/-- Restriction `da.sel(time=slice(ref, None))`: keep the time points whose date is at or
after the reference year. -/
def selTimeFrom (v : DataArray) (r : Int) : DataArray :=
  { v with
    times := v.times.filter fun t => r ≤ t
    values := v.values.map (sliceRow v.times r) }

/-- Assignment `da[k] = c`: overwrite the coordinate if the key exists,
otherwise append it. -/
def setCoord (cs : List (String × Coord)) (k : String) (c : Coord) :
    List (String × Coord) :=
  if cs.any fun p => p.1 = k then
    cs.map fun p => if p.1 = k then (k, c) else p
  else cs ++ [(k, c)]

/-! ## The two local helper functions (notebook cell 8) -/

/-- Embedding of `add_lead_time_coord(da, ref)`: lead time is
`da.time.dt.year - int(ref)`;
the function stores it on `da` as the coordinate `"Lead time"` with a
`units` attribute of `"years from {ref}"` (an in-place mutation, modelled by
returning the updated array alongside the return value), and returns the
lead-time array itself. -/
def add_lead_time_coord (da : DataArray) (ref : String) :
    Except String (List Int × DataArray) := do
  let r ← toIntE ref
  let lead_time := da.times.map fun y => y - r
  let da' :=
    { da with
      coords := setCoord da.coords "Lead time"
        { values := lead_time, attrs := [("units", "years from " ++ ref)] } }
  .ok (lead_time, da')

/-- The `colors` dict of cell 8. -/
def colors : List (String × String) :=
  [("variability", "#DC551A"), ("model", "#2B2B8B"), ("scenario", "#275620"), ("total", "k")]

/-- One `ax.fill_between(x, lower, upper, color=c)` call: the band between
two boundary series. -/
structure Band where
  lower : List ℚ
  upper : List ℚ
  color : String
  deriving Repr, DecidableEq

/-- The drawing produced on the axes: the x data (lead time), the filled
bands in drawing order, the black boundary lines, labels and y-limits. -/
structure Axes where
  x : List Int
  bands : List Band
  lines : List (List ℚ)
  xlabel : String
  ylabel : String
  ylim : ℚ × ℚ
  deriving Repr, DecidableEq

/-- The normalisation-and-restriction prefix of
`graph_fraction_of_total_variance`: fraction of total (times 100), then
`sel(time=slice(ref, None))`, then the lead-time coordinate. -/
def graphInput (variance : DataArray) (ref : String) :
    Except String (List Int × DataArray) := do
  let da₀ ← fractionOfTotal variance
  let r ← toIntE ref
  let da₁ := selTimeFrom da₀ r
  add_lead_time_coord da₁ ref

/-- Embedding of `graph_fraction_of_total_variance(variance, ref)`: normalise by the
`total` component (in percent), restrict to the reference year onward,
derive the lead-time axis, then draw the stacked bands
`[0, y1]`, `[y1, y2]`, `[y2, 100]` with `y1` the model fraction and `y2`
the model plus scenario fraction, the two black lines `y1`, `y2`, the axis
labels, and `ylim(0, 100)`. -/
def graph_fraction_of_total_variance (variance : DataArray) (ref : String) :
    Except String Axes := do
  let (lead_time, da) ← graphInput variance ref
  let y1 ← selUnc da "model"
  let ys ← selUnc da "scenario"
  let y2 := ys.zipWith (· + ·) y1
  .ok
    { x := lead_time
      bands :=
        [ { lower := lead_time.map fun _ => 0
            upper := y1
            color := (colors.lookup "model").getD "" }
        , { lower := y1
            upper := y2
            color := (colors.lookup "scenario").getD "" }
        , { lower := y2
            upper := lead_time.map fun _ => 100
            color := (colors.lookup "variability").getD "" } ]
      lines := [y1, y2]
      xlabel := "Lead time [years from " ++ ref ++ "]"
      ylabel := "Fraction of total variance [%]"
      ylim := (0, 100) }

/-! ## The script pipeline (notebook cells 2, 4 and 6)

The fetched CSV column `"world"` is a monthly series; a series is modelled
as a list of (calendar year, value) pairs in time order.  The HTTP/CSV
library stack is an oracle `fetch : String → Except String series`; the
external partitioning routine is an oracle as well. -/

/-- A monthly (or annual) time series: (calendar year of the date, value). -/
abbrev Series := List (Int × ℚ)

/-- The combined ensemble: one series per (model, scenario) tag. -/
abbrev Ens := List ((String × String) × List (Int × ℚ))

/-- The fetch loop of cell 2: for each (model, member) and each scenario, in
order, fetch the CSV at `host + pat.format(...)` and tag the resulting
series with the model and scenario coordinates.  The first fetch failure
aborts the loop with the error of the library. -/
def fetchTagged (fetch : String → Except String (List (Int × ℚ))) :
    List (String × String × String) → Except String Ens
  | [] => .ok []
  | j :: rest => do
      let series ← fetch (urlOfJob j)
      let tail ← fetchTagged fetch rest
      .ok (((j.1, j.2.1), series) :: tail)

/-- The distinct years appearing in a series, in order of first appearance. -/
def yearsOf (xs : List (Int × ℚ)) : List Int := (xs.map Prod.fst).dedup

/-- Annual resampling, `resample(time=Y).mean()`: one value per calendar
year, the arithmetic mean of the monthly values of that year. -/
def annualMean (xs : List (Int × ℚ)) : List (Int × ℚ) :=
  (yearsOf xs).map fun y =>
    let vs := (xs.filter fun p => p.1 = y).map Prod.snd
    (y, vs.sum / (vs.length : ℚ))

/-- Cells 2 and 4 up to `ens`: fetch and tag every series, combine them into
one labelled collection (`xr.combine_by_coords`), then resample each to
annual means. -/
def buildEns (fetch : String → Except String (List (Int × ℚ))) :
    Except String Ens :=
  (fetchTagged fetch fetchJobs).map (List.map fun e => (e.1, annualMean e.2))

/-- Cells 2, 4 and 6: build the annual ensemble, then hand it to the
external `xclim.ensembles.hawkins_sutton` oracle `hs`, which returns the
(mean, uncertainties) pair. -/
def runScript (fetch : String → Except String (List (Int × ℚ)))
    (hs : Ens → Except String (DataArray × DataArray)) :
    Except String (DataArray × DataArray) := do
  let ens ← buildEns fetch
  hs ens

/-- Modelled from the spec: the `uncertainty` labels of the array returned by
`xclim.ensembles.hawkins_sutton`, which is not under `src/` — "a derived
array indexed by (uncertainty-kind, time) with uncertainty-kind ∈
(model, scenario, variability, total)". -/
def hawkins_sutton_uncertainty_labels : List String :=
  ["model", "scenario", "variability", "total"]

/-! ## Helper lemmas -/

instance {ε α : Type} [DecidableEq ε] [DecidableEq α] :
    DecidableEq (Except ε α) := fun x y =>
  match x, y with
  | .ok a, .ok b =>
      if h : a = b then .isTrue (by rw [h])
      else .isFalse (by intro hc; cases hc; exact h rfl)
  | .error a, .error b =>
      if h : a = b then .isTrue (by rw [h])
      else .isFalse (by intro hc; cases hc; exact h rfl)
  | .ok _, .error _ => .isFalse (by intro hc; cases hc)
  | .error _, .ok _ => .isFalse (by intro hc; cases hc)

theorem idxOf?_of_mem {l : List String} {x : String} (h : x ∈ l) :
    ∃ i, idxOf? l x = some i ∧ i < l.length := by
  induction l with
  | nil => cases h
  | cons a as ih =>
      by_cases hax : a = x
      · exact ⟨0, by simp [idxOf?, hax], by simp⟩
      · have hmem : x ∈ as := by
          rcases List.mem_cons.mp h with h1 | h1
          · exact absurd h1.symm hax
          · exact h1
        rcases ih hmem with ⟨i, hi, hlt⟩
        refine ⟨i + 1, ?_, ?_⟩
        · simp [idxOf?, hax, hi]
        · simpa using Nat.succ_lt_succ hlt

theorem selUnc_ok_of_mem {v : DataArray} {label : String} (h : label ∈ v.uncs)
    (hlen : v.values.length = v.uncs.length) :
    ∃ row, selUnc v label = .ok row := by
  rcases idxOf?_of_mem h with ⟨i, hi, hlt⟩
  have hlt' : i < v.values.length := hlen ▸ hlt
  exact ⟨v.values[i], by simp [selUnc, hi, List.getElem?_eq_getElem hlt']⟩

theorem selUnc_inv {v : DataArray} {label : String} {row : List ℚ}
    (h : selUnc v label = .ok row) :
    ∃ i, idxOf? v.uncs label = some i ∧ v.values[i]? = some row := by
  unfold selUnc at h
  split at h
  · rename_i i hi
    split at h
    · rename_i r hr
      cases h
      exact ⟨i, hi, hr⟩
    · cases h
  · cases h

theorem zip_self_map_getElem (f : ℚ × ℚ → ℚ) (l : List ℚ) :
    ∀ (j : Nat) (x : ℚ), l[j]? = some x →
      ((l.zip l).map f)[j]? = some (f (x, x)) := by
  induction l with
  | nil => intro j x hx; simp at hx
  | cons a as ih =>
      intro j x hx
      cases j with
      | zero =>
          simp at hx
          subst hx
          simp
      | succ n =>
          simp only [List.getElem?_cons_succ] at hx
          simpa using ih n x hx

/-! ## Claims -/

/-- C4: every remote resource fetched is an HTTP GET of `host` concatenated
with the template `CMIP6_{model}_{scenario}_{member}.csv` with the names
substituted; exactly one fetch per (model, scenario) pair (9 in total), the
member matched to the model by position, and no other URL shape. -/
theorem C4_fetch_urls :
    fetchURLs.length = 9 ∧
    fetchURLs =
      [ host ++ "CMIP6_ACCESS-CM2_ssp245_r1i1p1f1.csv"
      , host ++ "CMIP6_ACCESS-CM2_ssp370_r1i1p1f1.csv"
      , host ++ "CMIP6_ACCESS-CM2_ssp585_r1i1p1f1.csv"
      , host ++ "CMIP6_CMCC-CM2-SR5_ssp245_r1i1p1f1.csv"
      , host ++ "CMIP6_CMCC-CM2-SR5_ssp370_r1i1p1f1.csv"
      , host ++ "CMIP6_CMCC-CM2-SR5_ssp585_r1i1p1f1.csv"
      , host ++ "CMIP6_CanESM5_ssp245_r1i1p1f1.csv"
      , host ++ "CMIP6_CanESM5_ssp370_r1i1p1f1.csv"
      , host ++ "CMIP6_CanESM5_ssp585_r1i1p1f1.csv" ] ∧
    fetchURLs.Nodup ∧
    (models.all fun m => scenarios.all fun s =>
      fetchURLs.count (host ++ formatPat m s (memberFor m)) == 1) = true := by
  refine ⟨rfl, by decide, by decide, by decide⟩

/-- A one-component variance array on which the normalised `total` value is
100, not 1. -/
def cexVariance : DataArray :=
  { uncs := ["total"], times := [2000], values := [[2]], coords := [], attrs := [] }

/-- C1 counterexample: the fraction computation multiplies the ratio by 100,
so on a concrete array with nonzero total variance the normalised value of
the `total` component is 100, not one. -/
theorem C1_counterexample :
    (fractionOfTotal cexVariance).map DataArray.values = .ok [[100]] ∧
    ((100 : ℚ) ≠ 1) := by
  constructor
  · norm_num [fractionOfTotal, cexVariance, selUnc, idxOf?, Except.map]
  · norm_num

/-- C1 (amended): the fraction computation divides each component by the
`total` component and multiplies by 100, so at every time point where the
total variance is nonzero the normalised value of the `total` component
equals 100 (percent), not one. -/
theorem C1_total_normalised (v : DataArray) (tot : List ℚ) (w : DataArray)
    (htot : selUnc v "total" = .ok tot) (hw : fractionOfTotal v = .ok w) :
    ∃ tot', selUnc w "total" = .ok tot' ∧
      ∀ (j : Nat) (x : ℚ), tot[j]? = some x → x ≠ 0 →
        tot'[j]? = some 100 := by
  unfold fractionOfTotal at hw
  rw [htot] at hw
  simp only [Except.map] at hw
  cases hw
  rcases selUnc_inv htot with ⟨i, hi, hrow⟩
  refine ⟨(tot.zip tot).map fun p => p.1 / p.2 * 100, ?_, ?_⟩
  · simp [selUnc, hi, List.getElem?_map, hrow]
  · intro j x hx hx0
    have := zip_self_map_getElem (fun p => p.1 / p.2 * 100) tot j x hx
    rw [this]
    simp [div_self hx0]

/-- A two-component variance array used to instantiate C1. -/
def wVariance : DataArray :=
  { uncs := ["total", "model"], times := [2000, 2001],
    values := [[2, 4], [1, 1]], coords := [], attrs := [] }

/-- The fraction array `fractionOfTotal` produces on `wVariance`. -/
def wFrac : DataArray :=
  { uncs := ["total", "model"], times := [2000, 2001],
    values := [[100, 100], [50, 25]], coords := [], attrs := [] }

/-- C1 witness. -/
theorem C1_total_normalised_witness :
    ∃ tot', selUnc wFrac "total" = .ok tot' ∧
      ∀ (j : Nat) (x : ℚ), [(2 : ℚ), 4][j]? = some x → x ≠ 0 →
        tot'[j]? = some 100 :=
  C1_total_normalised wVariance [2, 4] wFrac
    (by simp [selUnc, wVariance, idxOf?])
    (by norm_num [fractionOfTotal, wVariance, wFrac, selUnc, idxOf?, Except.map])

/-- C2: for a date-valued time axis and a reference-year string parseable as
an integer, `add_lead_time_coord` computes for each time point the calendar
year of that point minus `int(ref)`, and returns that lead-time array. -/
theorem C2_lead_time_values (da : DataArray) (ref : String) (r : Int)
    (hr : pyInt ref = some r) (lt : List Int) (da' : DataArray)
    (h : add_lead_time_coord da ref = .ok (lt, da')) :
    lt = da.times.map fun y => y - r := by
  simp only [add_lead_time_coord, toIntE, hr, Bind.bind, Except.bind,
    Except.ok.injEq, Prod.mk.injEq] at h
  exact h.1.symm

/-- An array with a three-point time axis, used to instantiate C2. -/
def wDa2 : DataArray :=
  { uncs := [], times := [2016, 2020, 2030], values := [], coords := [], attrs := [] }

/-- C2 witness. -/
theorem C2_lead_time_values_witness :
    ([0, 4, 14] : List Int) = wDa2.times.map fun y => y - 2016 :=
  C2_lead_time_values wDa2 "2016" 2016 (by decide) [0, 4, 14]
    { wDa2 with
      coords := [("Lead time",
        { values := [0, 4, 14], attrs := [("units", "years from 2016")] })] }
    (by decide)

/-- An array whose lead-time computation is evaluated concretely for C7. -/
def cexDet : DataArray :=
  { uncs := [], times := [2016, 2020, 2030], values := [], coords := [], attrs := [] }

/-- C7 counterexample: deterministic, network-free, testable local logic
does exist — `add_lead_time_coord` evaluated on a concrete input yields a
fixed concrete output, and two runs on equal inputs give equal results. -/
theorem C7_counterexample :
    (add_lead_time_coord cexDet "2016").map Prod.fst = .ok [0, 4, 14] ∧
    add_lead_time_coord cexDet "2016" = add_lead_time_coord cexDet "2016" :=
  ⟨by decide, rfl⟩

/-- C7 (amended): the locally defined `add_lead_time_coord` is a
deterministic pure function of its explicit inputs — its returned lead-time
array depends only on the time axis of `da` and on `ref`, with no network
access involved. -/
theorem C7_deterministic (da₁ da₂ : DataArray) (ref : String)
    (h : da₁.times = da₂.times) :
    (add_lead_time_coord da₁ ref).map Prod.fst =
      (add_lead_time_coord da₂ ref).map Prod.fst := by
  cases htoi : toIntE ref with
  | error e =>
      simp [add_lead_time_coord, htoi, Bind.bind, Except.bind, Except.map]
  | ok r =>
      simp [add_lead_time_coord, htoi, Bind.bind, Except.bind, Except.map, h]

/-- A second array sharing the time axis of `cexDet` but nothing else. -/
def wDet2 : DataArray :=
  { uncs := ["total"], times := [2016, 2020, 2030], values := [[1, 2, 3]],
    coords := [], attrs := [("experiment", "ssp245")] }

/-- C7 witness. -/
theorem C7_deterministic_witness :
    (add_lead_time_coord cexDet "2016").map Prod.fst =
      (add_lead_time_coord wDet2 "2016").map Prod.fst :=
  C7_deterministic cexDet wDet2 "2016" rfl

/-- C8: `add_lead_time_coord` changes nothing but the added coordinate —
after the call the array carries a new `"Lead time"` coordinate whose
`units` attribute is `"years from {ref}"`, while its data values, time
axis, uncertainty labels, pre-existing coordinates and attributes are
unchanged, and the return value of the function is the lead-time array itself,
not the mutated `da`. -/
theorem C8_frame (da : DataArray) (ref : String) (r : Int) (lt : List Int)
    (da' : DataArray) (hr : pyInt ref = some r)
    (hnew : (da.coords.any fun p => p.1 = "Lead time") = false)
    (h : add_lead_time_coord da ref = .ok (lt, da')) :
    da'.uncs = da.uncs ∧ da'.times = da.times ∧ da'.values = da.values ∧
    da'.attrs = da.attrs ∧
    da'.coords = da.coords ++
      [("Lead time",
        { values := da.times.map fun y => y - r,
          attrs := [("units", "years from " ++ ref)] })] ∧
    lt = da.times.map fun y => y - r := by
  simp only [add_lead_time_coord, toIntE, hr, Bind.bind, Except.bind,
    setCoord, hnew, Bool.false_eq_true, if_false, Except.ok.injEq,
    Prod.mk.injEq] at h
  obtain ⟨h1, h2⟩ := h
  subst h1
  subst h2
  exact ⟨rfl, rfl, rfl, rfl, rfl, rfl⟩

/-- An array carrying a pre-existing coordinate and attribute, for C8. -/
def wDa8 : DataArray :=
  { uncs := ["total"], times := [2019, 2021], values := [[5, 6]],
    coords := [("height", { values := [2, 2], attrs := [] })],
    attrs := [("units", "K")] }

/-- C8 witness. -/
theorem C8_frame_witness :
    (wDa8.coords ++
      [("Lead time",
        { values := wDa8.times.map fun y => y - 2016,
          attrs := [("units", "years from 2016")] })]) =
      wDa8.coords ++
        [("Lead time",
          { values := [3, 5], attrs := [("units", "years from 2016")] })] :=
  ((((C8_frame wDa8 "2016" 2016 [3, 5]
      { wDa8 with
        coords := wDa8.coords ++
          [("Lead time",
            { values := [3, 5], attrs := [("units", "years from 2016")] })] }
      (by decide) (by decide) (by decide)).2).2).2).2.1 ▸ rfl

theorem fractionOfTotal_ok {v : DataArray} {tot : List ℚ}
    (htot : selUnc v "total" = .ok tot) :
    fractionOfTotal v =
      .ok { v with
            values := v.values.map fun row =>
              (row.zip tot).map fun p => p.1 / p.2 * 100 } := by
  simp [fractionOfTotal, htot, Except.map]

theorem graphInput_eq_ok {v : DataArray} {tot : List ℚ} {ref : String}
    {r : Int} (htot : selUnc v "total" = .ok tot) (hr : pyInt ref = some r) :
    graphInput v ref =
      .ok ((v.times.filter fun t => r ≤ t).map fun y => y - r,
        { uncs := v.uncs
          times := v.times.filter fun t => r ≤ t
          values :=
            (v.values.map fun row =>
              (row.zip tot).map fun p => p.1 / p.2 * 100).map
              (sliceRow v.times r)
          coords := setCoord v.coords "Lead time"
            { values := (v.times.filter fun t => r ≤ t).map fun y => y - r
              attrs := [("units", "years from " ++ ref)] }
          attrs := v.attrs }) := by
  simp [graphInput, fractionOfTotal, htot, toIntE, hr, add_lead_time_coord,
    selTimeFrom, Bind.bind, Except.bind, Except.map]

theorem graphInput_ok {v : DataArray} {tot : List ℚ} {ref : String} {r : Int}
    (htot : selUnc v "total" = .ok tot) (hr : pyInt ref = some r) :
    ∃ lt da, graphInput v ref = .ok (lt, da) ∧ da.uncs = v.uncs ∧
      da.values.length = v.values.length :=
  ⟨_, _, graphInput_eq_ok htot hr, rfl, by simp⟩

/-- C5: exceptions from the wrapped library calls propagate unchanged to the
caller: a failing fetch aborts the fetch loop with the error of the library
(whether it is the first request or any later one), a missing `total`
label surfaces the `KeyError` of the selection unchanged from
`graph_fraction_of_total_variance`, and an unparseable reference year
surfaces the `ValueError` of `int` unchanged from both helpers — no local branch
recovers, retries or translates. -/
theorem C5_error_propagation :
    (∀ (fetch : String → Except String (List (Int × ℚ)))
        (j : String × String × String)
        (rest : List (String × String × String)) (e : String),
        fetch (urlOfJob j) = .error e →
          fetchTagged fetch (j :: rest) = .error e) ∧
    (∀ (fetch : String → Except String (List (Int × ℚ)))
        (j : String × String × String)
        (rest : List (String × String × String)) (s : List (Int × ℚ))
        (e : String),
        fetch (urlOfJob j) = .ok s → fetchTagged fetch rest = .error e →
          fetchTagged fetch (j :: rest) = .error e) ∧
    (∀ (v : DataArray) (ref : String) (e : String),
        selUnc v "total" = .error e →
          graph_fraction_of_total_variance v ref = .error e) ∧
    (∀ (v : DataArray) (ref : String) (e : String) (w : DataArray),
        fractionOfTotal v = .ok w → toIntE ref = .error e →
          graph_fraction_of_total_variance v ref = .error e) ∧
    (∀ (da : DataArray) (ref : String) (e : String),
        toIntE ref = .error e → add_lead_time_coord da ref = .error e) := by
  refine ⟨?_, ?_, ?_, ?_, ?_⟩
  · intro fetch j rest e he
    simp [fetchTagged, he, Bind.bind, Except.bind]
  · intro fetch j rest s e hs he
    simp [fetchTagged, hs, he, Bind.bind, Except.bind]
  · intro v ref e he
    simp [graph_fraction_of_total_variance, graphInput, fractionOfTotal, he,
      Bind.bind, Except.bind, Except.map]
  · intro v ref e w hw he
    simp [graph_fraction_of_total_variance, graphInput, hw, he,
      Bind.bind, Except.bind, Except.map]
  · intro da ref e he
    simp [add_lead_time_coord, he, Bind.bind, Except.bind]

/-- A fetch oracle standing for a network stack whose every request fails. -/
def failFetch : String → Except String (List (Int × ℚ)) :=
  fun _ => .error "URLError"

/-- C5 witness. -/
theorem C5_error_propagation_witness :
    fetchTagged failFetch [("ACCESS-CM2", "ssp245", "r1i1p1f1")] =
      .error "URLError" ∧
    graph_fraction_of_total_variance wDa2 "2016" = .error "KeyError: total" ∧
    add_lead_time_coord wDa2 "year0" =
      .error "ValueError: invalid literal for int with base 10: year0" :=
  ⟨C5_error_propagation.1 failFetch ("ACCESS-CM2", "ssp245", "r1i1p1f1") []
      "URLError" rfl,
   C5_error_propagation.2.2.1 wDa2 "2016" "KeyError: total" (by decide),
   C5_error_propagation.2.2.2.2 wDa2 "year0"
      "ValueError: invalid literal for int with base 10: year0" (by decide)⟩

/-- C6: the derived uncertainty array is indexed by uncertainty kinds
ranging over exactly model, scenario, variability and total, and whenever
the input of `graph_fraction_of_total_variance` carries at least the
labels `total`, `model` and `scenario` on its `uncertainty` coordinate
(with a row of values per label and a parseable reference year), every
label selection inside the function succeeds: the function returns `.ok`
and never reaches a selection-failure branch. -/
theorem C6_selections_succeed (v : DataArray) (ref : String) (r : Int)
    (htotm : "total" ∈ v.uncs) (hmod : "model" ∈ v.uncs)
    (hsc : "scenario" ∈ v.uncs)
    (hlen : v.values.length = v.uncs.length)
    (hr : pyInt ref = some r) :
    (∃ ax, graph_fraction_of_total_variance v ref = .ok ax) ∧
    (["total", "model", "scenario"].all fun l =>
      hawkins_sutton_uncertainty_labels.contains l) = true ∧
    hawkins_sutton_uncertainty_labels =
      ["model", "scenario", "variability", "total"] := by
  refine ⟨?_, by decide, rfl⟩
  obtain ⟨tot, htot⟩ := selUnc_ok_of_mem htotm hlen
  obtain ⟨lt, da, hgi, hu, hlen2⟩ := graphInput_ok htot hr
  obtain ⟨y1, h1⟩ :=
    selUnc_ok_of_mem (show "model" ∈ da.uncs by rw [hu]; exact hmod)
      (by rw [hlen2, hu]; exact hlen)
  obtain ⟨ys, h2⟩ :=
    selUnc_ok_of_mem (show "scenario" ∈ da.uncs by rw [hu]; exact hsc)
      (by rw [hlen2, hu]; exact hlen)
  have hres : graph_fraction_of_total_variance v ref =
      .ok { x := lt
            bands :=
              [ { lower := List.replicate lt.length 0, upper := y1,
                  color := (List.lookup "model" colors).getD "" }
              , { lower := y1, upper := List.zipWith (· + ·) ys y1,
                  color := (List.lookup "scenario" colors).getD "" }
              , { lower := List.zipWith (· + ·) ys y1,
                  upper := List.replicate lt.length 100,
                  color := (List.lookup "variability" colors).getD "" } ]
            lines := [y1, List.zipWith (· + ·) ys y1]
            xlabel := "Lead time [years from " ++ ref ++ "]"
            ylabel := "Fraction of total variance [%]"
            ylim := (0, 100) } := by
    simp [graph_fraction_of_total_variance, hgi, h1, h2, Bind.bind,
      Except.bind]
  exact ⟨_, hres⟩

/-- A four-component variance array carrying the labels the partitioning
routine produces, used to instantiate C6. -/
def wDa6 : DataArray :=
  { uncs := ["model", "scenario", "variability", "total"]
    times := [2016, 2020]
    values := [[1, 2], [1, 1], [1, 1], [4, 5]]
    coords := []
    attrs := [] }

/-- C6 witness. -/
theorem C6_selections_succeed_witness :
    (∃ ax, graph_fraction_of_total_variance wDa6 "2016" = .ok ax) ∧
    (["total", "model", "scenario"].all fun l =>
      hawkins_sutton_uncertainty_labels.contains l) = true ∧
    hawkins_sutton_uncertainty_labels =
      ["model", "scenario", "variability", "total"] :=
  C6_selections_succeed wDa6 "2016" 2016 (by decide) (by decide) (by decide)
    (by decide) (by decide)

/-- C3: the steps of the script occur in the fixed order — fetch and tag each
series, combine them into one labelled ensemble, resample the monthly
series to annual means, and only then call the external
variance-partitioning oracle: the argument the partitioning call receives
is the annually-resampled ensemble, each of whose values is the arithmetic
mean of the monthly values of that year; resampling thus happens before
partitioning, never after. -/
theorem C3_pipeline_order
    (fetch : String → Except String (List (Int × ℚ)))
    (hs : Ens → Except String (DataArray × DataArray)) (ens : Ens)
    (h : buildEns fetch = .ok ens) :
    runScript fetch hs = hs ens ∧
    (∀ tag s, (tag, s) ∈ ens → ∃ raw mon,
      fetchTagged fetch fetchJobs = .ok raw ∧ (tag, mon) ∈ raw ∧
      s = annualMean mon) ∧
    (∀ (mon : List (Int × ℚ)) (y : Int) (v : ℚ), (y, v) ∈ annualMean mon →
      ((mon.filter fun p => p.1 = y).map Prod.snd) ≠ [] ∧
      v = ((mon.filter fun p => p.1 = y).map Prod.snd).sum /
        (((mon.filter fun p => p.1 = y).map Prod.snd).length : ℚ)) := by
  refine ⟨?_, ?_, ?_⟩
  · simp [runScript, h, Bind.bind, Except.bind]
  · unfold buildEns at h
    cases hft : fetchTagged fetch fetchJobs with
    | error e => rw [hft] at h; simp [Except.map] at h
    | ok raw =>
        rw [hft] at h
        simp only [Except.map, Except.ok.injEq] at h
        subst h
        intro tag s hmem
        rw [List.mem_map] at hmem
        obtain ⟨e, he, heq⟩ := hmem
        have h1 : e.1 = tag := congrArg Prod.fst heq
        have h2 : annualMean e.2 = s := congrArg Prod.snd heq
        subst h1
        refine ⟨raw, e.2, rfl, ?_, h2.symm⟩
        simpa using he
  · intro mon y v hmem
    simp only [annualMean, List.mem_map] at hmem
    obtain ⟨y', hy', heq⟩ := hmem
    have h1 : y' = y := congrArg Prod.fst heq
    subst h1
    have h2 : v = ((mon.filter fun p => p.1 = y').map Prod.snd).sum /
        (((mon.filter fun p => p.1 = y').map Prod.snd).length : ℚ) :=
      (congrArg Prod.snd heq).symm
    refine ⟨?_, h2⟩
    have hy : y' ∈ mon.map Prod.fst := List.mem_dedup.mp hy'
    obtain ⟨p, hp, hp1⟩ := List.mem_map.mp hy
    have hpf : p ∈ mon.filter fun q => q.1 = y' :=
      List.mem_filter.mpr ⟨hp, by simp [hp1]⟩
    exact List.ne_nil_of_mem (List.mem_map_of_mem Prod.snd hpf)

/-- A fetch oracle returning the same one-month series for every URL. -/
def wFetch : String → Except String (List (Int × ℚ)) :=
  fun _ => .ok [(2015, 4)]

/-- The annual resampling of `wFetch`'s series. -/
def wAnnual : List (Int × ℚ) := [(2015, 4)]

/-- The ensemble the script builds from `wFetch`. -/
def wEns : Ens :=
  [ (("ACCESS-CM2", "ssp245"), wAnnual), (("ACCESS-CM2", "ssp370"), wAnnual)
  , (("ACCESS-CM2", "ssp585"), wAnnual), (("CMCC-CM2-SR5", "ssp245"), wAnnual)
  , (("CMCC-CM2-SR5", "ssp370"), wAnnual), (("CMCC-CM2-SR5", "ssp585"), wAnnual)
  , (("CanESM5", "ssp245"), wAnnual), (("CanESM5", "ssp370"), wAnnual)
  , (("CanESM5", "ssp585"), wAnnual) ]

/-- A partitioning oracle for the C3 witness. -/
def wHS : Ens → Except String (DataArray × DataArray) :=
  fun _ => .ok (wDa6, wDa6)

/-- C3 witness. -/
theorem C3_pipeline_order_witness :
    runScript wFetch wHS = wHS wEns :=
  (C3_pipeline_order wFetch wHS wEns
    (by norm_num [buildEns, fetchTagged, fetchJobs, modelMembers, models,
      members, scenarios, wFetch, wEns, wAnnual, annualMean, yearsOf,
      Bind.bind, Except.bind, Except.map])).1

theorem sliceRow_cons (t : Int) (ts : List Int) (r : Int) (a : ℚ)
    (as : List ℚ) :
    sliceRow (t :: ts) r (a :: as) =
      if r ≤ t then a :: sliceRow ts r as else sliceRow ts r as := by
  by_cases hrt : r ≤ t <;> simp [sliceRow, hrt]

theorem sliceRow_fraction_comm (r : Int) (f : ℚ × ℚ → ℚ) :
    ∀ (times : List Int) (row tot : List ℚ),
      sliceRow times r ((row.zip tot).map f) =
        ((sliceRow times r row).zip (sliceRow times r tot)).map f := by
  intro times
  induction times with
  | nil => intro row tot; simp [sliceRow]
  | cons t ts ih =>
      intro row tot
      cases row with
      | nil => simp [sliceRow]
      | cons a as =>
          cases tot with
          | nil => simp [sliceRow]
          | cons c cs =>
              rw [List.zip_cons_cons, List.map_cons, sliceRow_cons,
                sliceRow_cons, sliceRow_cons]
              by_cases hrt : r ≤ t
              · simp only [if_pos hrt, List.zip_cons_cons, List.map_cons, ih]
              · simp only [if_neg hrt, ih]

theorem selUnc_selTimeFrom (v : DataArray) (r : Int) (label : String) :
    selUnc (selTimeFrom v r) label =
      (selUnc v label).map (sliceRow v.times r) := by
  unfold selUnc selTimeFrom
  cases hi : idxOf? v.uncs label with
  | none => simp [hi, Except.map]
  | some i =>
      simp only [hi]
      cases hv : v.values[i]? with
      | none => simp [List.getElem?_map, hv, Except.map]
      | some row => simp [List.getElem?_map, hv, Except.map]

/-- The fraction-then-slice prefix of the graph helper is determined by the
restriction of its input to the reference year onward: normalising first
and slicing second equals slicing first and normalising second. -/
theorem graphInput_slice_determined (v : DataArray) (ref : String) (r : Int)
    (hr : pyInt ref = some r) :
    graphInput v ref =
      (fractionOfTotal (selTimeFrom v r)).bind
        fun da => add_lead_time_coord da ref := by
  unfold graphInput
  cases htot : selUnc v "total" with
  | error e =>
      have h2 : selUnc (selTimeFrom v r) "total" = .error e := by
        rw [selUnc_selTimeFrom, htot]; rfl
      simp [fractionOfTotal, htot, h2, Bind.bind, Except.bind, Except.map,
        toIntE, hr]
  | ok tot =>
      have h2 : selUnc (selTimeFrom v r) "total" =
          .ok (sliceRow v.times r tot) := by
        rw [selUnc_selTimeFrom, htot]; rfl
      have hvals :
          (v.values.map fun row =>
            (row.zip tot).map fun p => p.1 / p.2 * 100).map
              (sliceRow v.times r) =
            (v.values.map (sliceRow v.times r)).map fun row =>
              (row.zip (sliceRow v.times r tot)).map fun p =>
                p.1 / p.2 * 100 := by
        rw [List.map_map, List.map_map]
        refine congrArg (fun g => v.values.map g) (funext fun row => ?_)
        exact sliceRow_fraction_comm r (fun p => p.1 / p.2 * 100) v.times
          row tot
      have harr :
          selTimeFrom
            { v with
              values := v.values.map fun row =>
                (row.zip tot).map fun p => p.1 / p.2 * 100 } r =
            { selTimeFrom v r with
              values := (v.values.map (sliceRow v.times r)).map fun row =>
                (row.zip (sliceRow v.times r tot)).map fun p =>
                  p.1 / p.2 * 100 } := by
        simp only [selTimeFrom]
        exact congrArg
          (fun w => DataArray.mk v.uncs (v.times.filter fun t => r ≤ t) w
            v.coords v.attrs) hvals
      simp only [fractionOfTotal, htot, h2, Except.map, toIntE, hr,
        Bind.bind, Except.bind, harr]
      rfl

/-- C9: `graph_fraction_of_total_variance` uses only data at or after the
reference year — two variance arrays whose restrictions to the reference
year onward coincide are drawn identically, so values at earlier time
points have no effect on the plotted fractions or band boundaries. -/
theorem C9_pre_reference_irrelevant (v₁ v₂ : DataArray) (ref : String)
    (r : Int) (hr : pyInt ref = some r)
    (hslice : selTimeFrom v₁ r = selTimeFrom v₂ r) :
    graph_fraction_of_total_variance v₁ ref =
      graph_fraction_of_total_variance v₂ ref := by
  unfold graph_fraction_of_total_variance
  rw [graphInput_slice_determined v₁ ref r hr,
    graphInput_slice_determined v₂ ref r hr, hslice]

/-- A variance array with a (pre-reference) 2014 time point. -/
def w9a : DataArray :=
  { uncs := ["total", "model", "scenario"]
    times := [2014, 2016, 2020]
    values := [[7, 4, 5], [7, 1, 2], [7, 1, 1]]
    coords := []
    attrs := [] }

/-- The same array with different values at the pre-reference time point. -/
def w9b : DataArray :=
  { uncs := ["total", "model", "scenario"]
    times := [2014, 2016, 2020]
    values := [[3, 4, 5], [1, 1, 2], [2, 1, 1]]
    coords := []
    attrs := [] }

/-- C9 witness. -/
theorem C9_pre_reference_irrelevant_witness :
    graph_fraction_of_total_variance w9a "2016" =
      graph_fraction_of_total_variance w9b "2016" :=
  C9_pre_reference_irrelevant w9a w9b "2016" 2016 (by decide) (by decide)

/-- C10: the stacked bands are cumulative with a fixed ceiling — the model
band spans 0 to the model fraction `y1`, the scenario band spans `y1` to
`y2 = y1 +` the scenario fraction, the variability band always spans `y2`
up to the constant 100 whatever the computed variability fraction is, and
the y-axis is clamped to `[0, 100]`. -/
theorem C10_bands (v : DataArray) (ref : String) (lt : List Int)
    (da : DataArray) (y1 ys : List ℚ)
    (hin : graphInput v ref = .ok (lt, da))
    (h1 : selUnc da "model" = .ok y1)
    (h2 : selUnc da "scenario" = .ok ys) :
    graph_fraction_of_total_variance v ref =
      .ok { x := lt
            bands :=
              [ { lower := List.replicate lt.length 0, upper := y1,
                  color := "#2B2B8B" }
              , { lower := y1, upper := List.zipWith (· + ·) ys y1,
                  color := "#275620" }
              , { lower := List.zipWith (· + ·) ys y1,
                  upper := List.replicate lt.length 100,
                  color := "#DC551A" } ]
            lines := [y1, List.zipWith (· + ·) ys y1]
            xlabel := "Lead time [years from " ++ ref ++ "]"
            ylabel := "Fraction of total variance [%]"
            ylim := (0, 100) } := by
  simp [graph_fraction_of_total_variance, hin, h1, h2, Bind.bind,
    Except.bind, colors, List.lookup]

/-- The array `graphInput` produces on `wDa6` with reference year 2016. -/
def wDa6Frac : DataArray :=
  { uncs := ["model", "scenario", "variability", "total"]
    times := [2016, 2020]
    values := [[25, 40], [25, 20], [25, 20], [100, 100]]
    coords := [("Lead time",
      { values := [0, 4], attrs := [("units", "years from 2016")] })]
    attrs := [] }

/-- C10 witness. -/
theorem C10_bands_witness :
    graph_fraction_of_total_variance wDa6 "2016" =
      .ok { x := [0, 4]
            bands :=
              [ { lower := List.replicate 2 0, upper := [25, 40],
                  color := "#2B2B8B" }
              , { lower := [25, 40], upper := List.zipWith (· + ·) [25, 20] [25, 40],
                  color := "#275620" }
              , { lower := List.zipWith (· + ·) [25, 20] [25, 40],
                  upper := List.replicate 2 100,
                  color := "#DC551A" } ]
            lines := [[25, 40], List.zipWith (· + ·) [25, 20] [25, 40]]
            xlabel := "Lead time [years from 2016]"
            ylabel := "Fraction of total variance [%]"
            ylim := (0, 100) } :=
  C10_bands wDa6 "2016" [0, 4] wDa6Frac [25, 40] [25, 20]
    (by
      have hpy : pyInt "2016" = some 2016 := by decide
      have htot : selUnc wDa6 "total" = .ok [4, 5] := by decide
      rw [graphInput_eq_ok htot hpy]
      norm_num [wDa6, wDa6Frac, sliceRow, setCoord]
      rfl)
    (by decide) (by decide)

end Partitioning
